import Mathlib

/-
  Verification of the A2A task-orchestration layer of this repository.

  The definitions below are a shallow embedding of the code in
  src/protocols.py (classes A2ATaskRouter, A2ATaskContext, A2ATaskResult,
  A2ATaskManager) together with the streaming consumer of src/main.py and
  the pydantic data model of src/models.py.  The repository runs on a
  single-threaded cooperative asyncio loop, so asyncio.Lock acquisition
  around the purely synchronous critical sections modelled here is a no-op
  and is not represented.  Nondeterministic inputs of an operation are
  passed explicitly: fresh_uuid stands for str(uuid.uuid4()) and now for
  datetime.now() (timestamps are abstracted to Nat).

  One behaviour of the source is load-bearing for several theorems below:
  A2ATaskManager._update_task_state (src/protocols.py line 507) is an
  async def, and every one of its seven call sites (lines 559, 577, 587,
  611, 648, 678) invokes it WITHOUT await.  Calling an async function
  merely builds a coroutine object; a coroutine that is never awaited and
  never scheduled does not execute.  Those call sites therefore do not
  modify the registry, and the embedding models them as no-ops (marked by
  inline comments at the corresponding places).
-/

namespace APIA

/-! ## Python-shaped helpers -/

/-- Truthiness of a Python Optional[str]: None and the empty string are
falsy, every other string is truthy. -/
def pyTruthyOptStr : Option String → Bool
  | none => false
  | some s => s ≠ ""

/-- Python expression a or b for a : Optional[str] and a string b:
yields a when a is truthy, else b. -/
def pyOrStr : Option String → String → String
  | none, d => d
  | some s, d => if s = "" then d else s

/-- Rendering of an Optional[str] inside a Python f-string:
None prints as the four letters None, a string prints as itself. -/
def pyFormatOptStr : Option String → String
  | none => "None"
  | some s => s

/-- Lookup in a dict modelled as an association list (first match wins;
dictInsert below keeps keys unique, matching Python dict semantics). -/
def dictGet {α : Type} (k : String) : List (String × α) → Option α
  | [] => none
  | (k', v) :: rest => if k' = k then some v else dictGet k rest

/-- Python dict assignment d[k] = v on an association list: replaces the
binding in place when the key exists, appends otherwise (Python dicts keep
insertion order). -/
def dictInsert {α : Type} (k : String) (v : α) : List (String × α) → List (String × α)
  | [] => [(k, v)]
  | (k', v') :: rest => if k' = k then (k, v) :: rest else (k', v') :: dictInsert k v rest

theorem dictGet_dictInsert_self {α : Type} (k : String) (v : α) (l : List (String × α)) :
    dictGet k (dictInsert k v l) = some v := by
  induction l with
  | nil => simp [dictGet, dictInsert]
  | cons hd tl ih =>
    obtain ⟨k', v'⟩ := hd
    by_cases h : k' = k
    · simp [dictGet, dictInsert, h]
    · simp [dictGet, dictInsert, h, ih]

/-! ## base64 (model of base64.b64decode as used by process_file_part)

base64.b64decode with validate=False (the default, and what
process_file_part calls) delegates to binascii.a2b_base64 in non-strict
mode (Modules/binascii.c in CPython).  That decoder walks the input once,
tracking the position inside the current group of four data characters
(quad_pos) and the pending bits of that group (leftchar):

  - a character outside the base64 alphabet that is not a pad is skipped;
  - a pad character with quad_pos below 2 is skipped; with quad_pos at
    least 2 it extends the current pad run, and as soon as
    quad_pos + pads reaches 4 decoding stops successfully, the output so
    far is returned and the rest of the input is ignored (this is why
    a bare pad, excess pads and data after a completed pad sequence all
    decode without error in non-strict mode);
  - a data character emits the completed byte of its group position and
    resets the pad run;
  - input that ends with quad_pos not 0 raises binascii.Error (one
    leftover data character, or incorrect padding).

Bytes are modelled as List Nat; the strict_mode-only checks (excess data
after padding, discontinuous padding, leftover bits) do not apply to the
call modelled here. -/

/-- Value of a base64 alphabet character, none for everything else. -/
def b64CharVal (c : Char) : Option Nat :=
  if 'A' ≤ c ∧ c ≤ 'Z' then some (c.toNat - 65)
  else if 'a' ≤ c ∧ c ≤ 'z' then some (c.toNat - 97 + 26)
  else if '0' ≤ c ∧ c ≤ '9' then some (c.toNat - 48 + 52)
  else if c = '+' then some 62
  else if c = '/' then some 63
  else none

/-- The main loop of binascii.a2b_base64 in non-strict mode, one input
character at a time.  The byte arithmetic is the shifts of the C switch:
at quad_pos 1 the byte is leftchar shifted left twice plus the top two
bits of the new value, and so on. -/
def b64Loop : List Char → Nat → Nat → Nat → List Nat → Option (List Nat)
  | [], quad_pos, _, _, out => if quad_pos = 0 then some out else none
  | c :: rest, quad_pos, leftchar, pads, out =>
      if c = '=' then
        if 2 ≤ quad_pos then
          if 4 ≤ quad_pos + (pads + 1) then some out
          else b64Loop rest quad_pos leftchar (pads + 1) out
        else b64Loop rest quad_pos leftchar pads out
      else
        match b64CharVal c with
        | none => b64Loop rest quad_pos leftchar pads out
        | some v =>
            match quad_pos with
            | 0 => b64Loop rest 1 v 0 out
            | 1 => b64Loop rest 2 (v % 16) 0 (out ++ [leftchar * 4 + v / 16])
            | 2 => b64Loop rest 3 (v % 4) 0 (out ++ [leftchar * 16 + v / 4])
            | _ => b64Loop rest 0 0 0 (out ++ [leftchar * 64 + v])

/-- Model of base64.b64decode (validate=False): some bytes on success,
none where the Python call raises binascii.Error. -/
def b64decode (s : String) : Option (List Nat) :=
  b64Loop s.toList 0 0 0 []

/-- Fidelity checks of the decoder model against CPython behaviour: the
lenient inputs non-strict decoding accepts (a bare pad, excess pads,
data after a completed pad sequence, a pad run followed by more data)
and the partial groups it rejects. -/
theorem b64decode_python_examples :
    b64decode "" = some [] ∧
    b64decode "=" = some [] ∧
    b64decode "aGk=" = some [104, 105] ∧
    b64decode "aGk=x" = some [104, 105] ∧
    b64decode "aGk==" = some [104, 105] ∧
    b64decode "ab==cd" = some [105] ∧
    b64decode "aGVsbG8=" = some [104, 101, 108, 108, 111] ∧
    b64decode "a" = none ∧
    b64decode "ab" = none ∧
    b64decode "abc" = none ∧
    b64decode "a===" = none := by decide

/-! ## Data model (src/models.py) -/

/-- A2AFile (src/models.py): the payload of a file part. -/
structure A2AFile where
  name : Option String := none
  mimeType : Option String := none
  bytes : Option String := none
  uri : Option String := none
  deriving DecidableEq

/-- A2APart (src/models.py): the tagged union of text, file and data
parts.  The data payload (Dict[str, Any]) is not inspected by any code
modelled here and is abstracted away. -/
inductive A2APart where
  | text (text : String)
  | file (file : A2AFile)
  | dataPart
  deriving DecidableEq

/-- A2AMessage (src/models.py).  Metadata values are only ever read as
strings by the modelled code (the skill_id routing hint), so the mapping
is modelled as an association list of strings. -/
structure A2AMessage where
  role : String
  parts : List A2APart
  metadata : Option (List (String × String)) := none
  deriving DecidableEq

/-- A2AArtifact (src/models.py). -/
structure A2AArtifact where
  name : Option String := none
  description : Option String := none
  parts : List A2APart := []
  index : Int := 0
  append : Option Bool := some false
  lastChunk : Option Bool := none
  deriving DecidableEq

/-- A2ATaskState (src/models.py); timestamp abstracted to Nat. -/
structure A2ATaskState where
  state : String
  message : Option A2AMessage := none
  timestamp : Nat := 0
  deriving DecidableEq

/-- A2ATask (src/models.py). -/
structure A2ATask where
  id : String
  sessionId : Option String := none
  status : A2ATaskState
  history : List A2AMessage := []
  artifacts : List A2AArtifact := []
  metadata : Option (List (String × String)) := none
  deriving DecidableEq

/-- A2ATaskSendParams (src/models.py). -/
structure A2ATaskSendParams where
  id : String
  sessionId : Option String := none
  message : A2AMessage
  acceptedOutputModes : List String := ["text/plain", "application/json"]
  historyLength : Option Int := some 0
  metadata : Option (List (String × String)) := none
  deriving DecidableEq

/-- The exception class A2AError of src/exceptions.py as raised by the
task manager: a message and a JSON-RPC error code. -/
structure A2AError where
  message : String
  code : Int
  deriving DecidableEq

/-- A2ATaskResult (src/protocols.py line 485): the terminal outcome a
handler returns; its constructor packs the status string and optional
message into an A2ATaskState. -/
structure A2ATaskResult where
  final_status : A2ATaskState
  artifacts : List A2AArtifact := []
  deriving DecidableEq

/-- One call a handler makes on its A2ATaskContext while it runs:
update_status pushes a status event, yield_artifact an artifact event
(src/protocols.py lines 462-479).  On a one-shot invocation (no queue
attached) these calls are no-ops. -/
inductive CtxEvent where
  | statusUpdate (state : String) (message_text : Option String) (final : Bool)
  | artifactUpdate (artifact : A2AArtifact)
  deriving DecidableEq

/-- Outcome of awaiting a handler: a normal A2ATaskResult or a raised
exception, abstracted to its str(e) text. -/
inductive HandlerOutcome where
  | ok (result : A2ATaskResult)
  | exn (msg : String)
  deriving DecidableEq

/-- A skill handler as the router sees it: whether
asyncio.iscoroutinefunction accepts it, and its behaviour, mapping the
task snapshot in its context to the context calls it performs plus its
outcome. -/
structure A2AHandler where
  iscoroutinefunction : Bool
  run : A2ATask → List CtxEvent × HandlerOutcome

structure A2ATaskRouter where
  handlers : List (String × A2AHandler)
  default_handler : Option A2AHandler

/-- A2ATaskRouter.register_handler (lines 377-385): a handler that is not
an async function is logged and NOT registered; otherwise the dict entry
for the skill id is written (overwriting an existing one). -/
def A2ATaskRouter.register_handler (r : A2ATaskRouter) (skill_id : String)
    (handler : A2AHandler) : A2ATaskRouter :=
  if handler.iscoroutinefunction then
    { r with handlers := dictInsert skill_id handler r.handlers }
  else r

/-- A2ATaskRouter.register_default_handler (lines 387-393). -/
def A2ATaskRouter.register_default_handler (r : A2ATaskRouter)
    (handler : A2AHandler) : A2ATaskRouter :=
  if handler.iscoroutinefunction then { r with default_handler := some handler }
  else r

/-- A2ATaskRouter.get_handler (lines 395-406): the guard is the Python
test (skill_id and skill_id in self.handlers), so a None or empty skill
id always falls through to the default slot, which itself may be empty. -/
def A2ATaskRouter.get_handler (r : A2ATaskRouter) (skill_id : Option String) :
    Option A2AHandler :=
  if pyTruthyOptStr skill_id && (dictGet (skill_id.getD "") r.handlers).isSome then
    dictGet (skill_id.getD "") r.handlers
  else
    r.default_handler

/-! ## Task Manager state (src/protocols.py lines 489-504) -/

/-- The knowledge-base metrics store (framework.APIA_KnowledgeBase) as the
task manager uses it: update_metric(category, name, value) and
get_metric(category, name, default) on integer counters. -/
structure KnowledgeBase where
  metrics : List ((String × String) × Int)

def KnowledgeBase.get_metric (kb : KnowledgeBase) (category name : String)
    (dflt : Int) : Int :=
  match kb.metrics.lookup (category, name) with
  | some v => v
  | none => dflt

def KnowledgeBase.update_metric (kb : KnowledgeBase) (category name : String)
    (value : Int) : KnowledgeBase :=
  { kb with metrics := ((category, name), value) :: kb.metrics.filter (fun e => e.1 ≠ (category, name)) }

/-- A2ATaskManager: the in-memory task registry, the dead-letter queue of
(task id, method, reason) triples, and the knowledge base.  The lock
tables carry no observable state in this sequential model. -/
structure A2ATaskManager where
  tasks : List (String × A2ATask)
  a2a_dlq : List (String × String × String)
  kb : KnowledgeBase

/-- A2ATaskManager._add_to_dlq (lines 524-531): appends one entry (the
task id falls back to the string unknown when falsy) and writes the
absolute queue length to the dlq_count metric. -/
def A2ATaskManager.add_to_dlq (mgr : A2ATaskManager) (task_id : Option String)
    (method reason : String) : A2ATaskManager :=
  let tid := pyOrStr task_id "unknown"
  let dlq' := mgr.a2a_dlq ++ [(tid, method, reason)]
  { mgr with a2a_dlq := dlq',
             kb := mgr.kb.update_metric "a2a_tasks" "dlq_count" (Int.ofNat dlq'.length) }

/-- Bump the counter metric name by one, as the manager does with
update_metric(cat, name, get_metric(cat, name, 0) + 1). -/
def A2ATaskManager.bumpMetric (mgr : A2ATaskManager) (name : String) : A2ATaskManager :=
  { mgr with
    kb := mgr.kb.update_metric "a2a_tasks" name (mgr.kb.get_metric "a2a_tasks" name 0 + 1) }

/-- The skill id of a request (line 535): the skill_id entry of the
message metadata, when present. -/
def paramsSkillId (params : A2ATaskSendParams) : Option String :=
  match params.message.metadata with
  | some md => dictGet "skill_id" md
  | none => none

/-- The states in which an existing task accepts another message
(lines 553 and 603). -/
def permittedResendStates : List String :=
  ["input-required", "completed", "working", "submitted", "canceled"]

/-- Rendering of an Optional[A2AMessage] inside a Python f-string: the
pydantic repr is abstracted to the role, since no modelled behaviour
depends on its exact text. -/
def pyFormatOptMessage : Option A2AMessage → String
  | none => "None"
  | some m => "A2AMessage role=" ++ m.role

/-- The agent-role single-text-part message the manager builds for
handler errors (lines 584 and 637). -/
def agentTextMessage (txt : String) : A2AMessage :=
  { role := "agent", parts := [A2APart.text txt], metadata := none }

/-- Result of one tasks/send or tasks/cancel call: the manager state when
the coroutine finishes and what it returned or raised. -/
structure SendOutcome where
  mgr : A2ATaskManager
  result : Except A2AError A2ATask

/-! ## tasks/send (src/protocols.py lines 544-593) -/

/-- Lines 570-593 of handle_task_send: run the handler on the snapshot
outside the lock, then perform the commit block.  The status/artifact
commits at lines 577 and 587 call the async _update_task_state without
await, so they never execute and the registry keeps the state written by
the accept phase; only the metrics and the dead-letter queue change.
Finally the stored task is returned (line 593); the registry entry is
guaranteed to exist at that point, and the unreachable fallback mirrors
the KeyError Python would raise. -/
def A2ATaskManager.sendCommitPhase (mgr : A2ATaskManager) (outcome : HandlerOutcome)
    (task_id : String) : A2ATaskManager :=
  match outcome with
  | .ok result =>
      -- line 577: self. _update_task_state(status=result.final_status,
      -- artifacts=result.artifacts, replace_artifacts=True) is not awaited: no effect
      if result.final_status.state = "completed" then
        mgr.bumpMetric "completed"
      else if result.final_status.state = "failed" then
        (mgr.bumpMetric "failed").add_to_dlq (some task_id) "tasks/send"
          ("Handler failed: " ++ pyFormatOptMessage result.final_status.message)
      else mgr
  | .exn e =>
      -- line 587: the failed status built at line 585 is passed to an
      -- un-awaited _update_task_state call: the registry keeps state working
      (mgr.bumpMetric "failed").add_to_dlq (some task_id) "tasks/send"
        ("Handler exception: " ++ e)

def A2ATaskManager.runSendHandler (mgr : A2ATaskManager) (handler : A2AHandler)
    (task_copy : A2ATask) (task_id : String) : SendOutcome :=
  let mgrAfter := mgr.sendCommitPhase (handler.run task_copy).2 task_id
  { mgr := mgrAfter,
    result :=
      match dictGet task_id mgrAfter.tasks with
      | some t => .ok t
      | none => .error { message := "KeyError: " ++ task_id, code := 0 } }

/-- A2ATaskManager.handle_task_send (lines 544-593).  fresh_uuid stands
for the str(uuid.uuid4()) of line 546, now for the timestamps of the
states constructed during the call. -/
def A2ATaskManager.handle_task_send (mgr : A2ATaskManager) (router : A2ATaskRouter)
    (params : A2ATaskSendParams) (fresh_uuid : String) (now : Nat) : SendOutcome :=
  let task_id := params.id
  let session_id := pyOrStr params.sessionId fresh_uuid
  match router.get_handler (paramsSkillId params) with
  | none =>
      -- _get_handler_for_task (lines 533-541): file to the DLQ and raise
      let mgr := mgr.add_to_dlq (some task_id) "tasks/send"
        ("No suitable handler found (Skill ID: " ++ pyFormatOptStr (paramsSkillId params) ++ ")")
      { mgr := mgr,
        result := .error { message := "No suitable agent handler found for skill "
                             ++ pyFormatOptStr (paramsSkillId params), code := -32601 } }
  | some handler =>
      match dictGet task_id mgr.tasks with
      | some task =>
          if permittedResendStates.contains task.status.state then
            let task' : A2ATask := { task with
              history := task.history ++ [params.message],
              sessionId := some session_id,
              status := { state := "working", message := none, timestamp := now } }
            -- line 559: _update_task_state called without await: no further effect
            let mgr := { mgr with tasks := dictInsert task_id task' mgr.tasks }
            mgr.runSendHandler handler task' task_id
          else
            { mgr := mgr,
              result := .error { message := "Task " ++ task_id ++ " in invalid state "
                                   ++ task.status.state, code := -32004 } }
      | none =>
          let task' : A2ATask :=
            { id := task_id, sessionId := some session_id,
              status := { state := "working", message := none, timestamp := now },
              history := [params.message], artifacts := [], metadata := params.metadata }
          let mgr := { mgr with tasks := dictInsert task_id task' mgr.tasks }
          let mgr := mgr.bumpMetric "received"
          mgr.runSendHandler handler task' task_id

/-! ## tasks/sendSubscribe (src/protocols.py lines 595-651) -/

/-- An item put on the per-task streaming queue: a status update event, an
artifact update event, or an A2AError object (the invalid-state path puts
the exception itself on the queue, line 605). -/
inductive QueueItem where
  | statusEvent (id : String) (status : A2ATaskState) (final : Bool)
  | artifactEvent (id : String) (artifact : A2AArtifact)
  | errorItem (message : String) (code : Int)
  deriving DecidableEq

/-- A2ATaskContext.update_status (lines 462-471): wraps the message text,
when truthy, in an agent message, builds an A2ATaskState and puts a
status update event on the queue. -/
def mkStatusItem (task_id state : String) (message_text : Option String)
    (final : Bool) (now : Nat) : QueueItem :=
  let status_message : Option A2AMessage :=
    match message_text with
    | some t => if t = "" then none else some (agentTextMessage t)
    | none => none
  QueueItem.statusEvent task_id { state := state, message := status_message, timestamp := now } final

/-- The queue item produced by one context call of a streaming handler. -/
def ctxEventToItem (task_id : String) (now : Nat) : CtxEvent → QueueItem
  | .statusUpdate st txt fin => mkStatusItem task_id st txt fin now
  | .artifactUpdate art => QueueItem.artifactEvent task_id art

/-- The expression final_status.message.parts[0].text if final_status.message
else None of line 629: ok with the text when the message is absent or its
first part is a text part, otherwise the IndexError or AttributeError the
subscript raises (caught by the except block). -/
def finalPushText : Option A2AMessage → Except String (Option String)
  | none => .ok none
  | some m =>
      match m.parts with
      | A2APart.text t :: _ => .ok (some t)
      | A2APart.file _ :: _ => .error "AttributeError: file part has no attribute text"
      | A2APart.dataPart :: _ => .error "AttributeError: data part has no attribute text"
      | [] => .error "IndexError: list index out of range"

/-- Result of one handle_task_send_subscribe coroutine: the manager state
at its end, everything it put on the streaming queue in order, and the
A2AError it raised (some only on the unroutable path). -/
structure SubscribeOutcome where
  mgr : A2ATaskManager
  queue : List QueueItem
  raised : Option A2AError

/-- The finally block (lines 645-651): the commit at line 648 calls
_update_task_state without await, so the final status and artifacts are
never written to the registry; the failed dead-letter entry and the
completed/failed counter do run. -/
def A2ATaskManager.subscribeFinally (mgr : A2ATaskManager) (task_id : String)
    (final_status : A2ATaskState) : A2ATaskManager :=
  let metric_category := if final_status.state = "completed" then "completed" else "failed"
  let mgr :=
    if metric_category = "failed" then
      mgr.add_to_dlq (some task_id) "tasks/sendSubscribe"
        ("Stream handler failed: " ++ pyFormatOptMessage final_status.message)
    else mgr
  mgr.bumpMetric metric_category

/-- Lines 622-651 of handle_task_send_subscribe: push the initial working
event, run the handler (its context calls append to the queue as they
happen), push the final status event, and run the finally block.  A
handler exception, or an exception while building the final push
arguments, is converted at lines 636-643 into a failed final event plus a
Handler exception dead-letter entry, after which the finally block files
a second Stream handler failed entry. -/
def A2ATaskManager.runSubscribeHandler (mgr : A2ATaskManager) (handler : A2AHandler)
    (task_copy : A2ATask) (task_id : String) (now : Nat) : A2ATaskManager × List QueueItem :=
  let initItem := mkStatusItem task_id "working" (some "Task submitted for processing...") false now
  let hItems := ((handler.run task_copy).1).map (ctxEventToItem task_id now)
  match (handler.run task_copy).2 with
  | .ok result =>
      match finalPushText result.final_status.message with
      | .ok txt =>
          let finalItem := mkStatusItem task_id result.final_status.state txt true now
          (mgr.subscribeFinally task_id result.final_status,
           initItem :: hItems ++ [finalItem])
      | .error e =>
          let failed_status : A2ATaskState :=
            { state := "failed", message := some (agentTextMessage ("Internal error: " ++ e)),
              timestamp := now }
          let finalItem := mkStatusItem task_id "failed" (some ("Internal error: " ++ e)) true now
          let mgr := mgr.add_to_dlq (some task_id) "tasks/sendSubscribe" ("Handler exception: " ++ e)
          (mgr.subscribeFinally task_id failed_status,
           initItem :: hItems ++ [finalItem])
  | .exn e =>
      let failed_status : A2ATaskState :=
        { state := "failed", message := some (agentTextMessage ("Internal error: " ++ e)),
          timestamp := now }
      let finalItem := mkStatusItem task_id "failed" (some ("Internal error: " ++ e)) true now
      let mgr := mgr.add_to_dlq (some task_id) "tasks/sendSubscribe" ("Handler exception: " ++ e)
      (mgr.subscribeFinally task_id failed_status,
       initItem :: hItems ++ [finalItem])

/-- A2ATaskManager.handle_task_send_subscribe (lines 595-651).  The
routing failure raised by _get_handler_for_task files its dead-letter
entry under the method string tasks/send, because the helper hardcodes
that method name (line 540). -/
def A2ATaskManager.handle_task_send_subscribe (mgr : A2ATaskManager)
    (router : A2ATaskRouter) (params : A2ATaskSendParams) (fresh_uuid : String)
    (now : Nat) : SubscribeOutcome :=
  let task_id := params.id
  let session_id := pyOrStr params.sessionId fresh_uuid
  match router.get_handler (paramsSkillId params) with
  | none =>
      let mgr := mgr.add_to_dlq (some task_id) "tasks/send"
        ("No suitable handler found (Skill ID: " ++ pyFormatOptStr (paramsSkillId params) ++ ")")
      { mgr := mgr, queue := [],
        raised := some { message := "No suitable agent handler found for skill "
                           ++ pyFormatOptStr (paramsSkillId params), code := -32601 } }
  | some handler =>
      match dictGet task_id mgr.tasks with
      | some task =>
          if permittedResendStates.contains task.status.state then
            let task' : A2ATask := { task with
              history := task.history ++ [params.message],
              sessionId := some session_id,
              status := { state := "working", message := none, timestamp := now } }
            -- line 611: _update_task_state called without await: no further effect
            let mgr := { mgr with tasks := dictInsert task_id task' mgr.tasks }
            let (mgr', queue) := mgr.runSubscribeHandler handler task' task_id now
            { mgr := mgr', queue := queue, raised := none }
          else
            -- lines 604-605: the A2AError is put on the queue and the coroutine returns
            { mgr := mgr,
              queue := [QueueItem.errorItem ("Task in invalid state " ++ task.status.state) (-32004)],
              raised := none }
      | none =>
          let task' : A2ATask :=
            { id := task_id, sessionId := some session_id,
              status := { state := "working", message := none, timestamp := now },
              history := [params.message], artifacts := [], metadata := params.metadata }
          let mgr := { mgr with tasks := dictInsert task_id task' mgr.tasks }
          let mgr := mgr.bumpMetric "received"
          let (mgr', queue) := mgr.runSubscribeHandler handler task' task_id now
          { mgr := mgr', queue := queue, raised := none }

/-- The SSE event generator of src/main.py (lines 270-315): it relays
each queued update event to the subscriber, stops after the first status
event marked final, and stops after relaying an error item. -/
def observedEvents : List QueueItem → List QueueItem
  | [] => []
  | QueueItem.statusEvent i st fin :: rest =>
      if fin then [QueueItem.statusEvent i st fin]
      else QueueItem.statusEvent i st fin :: observedEvents rest
  | QueueItem.artifactEvent i a :: rest =>
      QueueItem.artifactEvent i a :: observedEvents rest
  | QueueItem.errorItem m c :: _ => [QueueItem.errorItem m c]

/-! ## tasks/get and tasks/cancel (src/protocols.py lines 654-682) -/

/-- The Python slice history[-n:] for n greater or equal 0: for n = 0 the
index -0 is 0, so the slice is the whole list; for positive n it is the
last n elements. -/
def pyTailSlice {α : Type} (l : List α) (n : Int) : List α :=
  if n = 0 then l else l.drop (l.length - n.toNat)

/-- A2ATaskManager.handle_task_get (lines 654-664).  The returned task is
a deep copy, so the registry is unaffected; the copy is a value here.
Note the branch structure of lines 660-663: the first branch already
fires for history_length = 0 whenever the stored history is non-empty,
and a negative history_length takes neither branch. -/
def A2ATaskManager.handle_task_get (mgr : A2ATaskManager) (task_id : String)
    (history_length : Int) : Except A2AError A2ATask :=
  match dictGet task_id mgr.tasks with
  | none => .error { message := "Task " ++ task_id ++ " not found", code := -32001 }
  | some task =>
      let task_copy :=
        if 0 ≤ history_length ∧ task.history ≠ [] then
          { task with history := pyTailSlice task.history history_length }
        else if history_length = 0 then
          { task with history := [] }
        else task
      .ok task_copy

/-- A2ATaskManager.handle_task_cancel (lines 666-682).  For a task in a
terminal state nothing happens and the stored task is returned.  For a
non-terminal task the canceled status built at line 677 is passed to an
un-awaited _update_task_state call (line 678), which therefore never
executes: only the canceled counter is bumped, and the task is returned
unchanged, still in its previous state and with its artifacts intact. -/
def A2ATaskManager.handle_task_cancel (mgr : A2ATaskManager) (task_id : String)
    (_now : Nat) : SendOutcome :=
  match dictGet task_id mgr.tasks with
  | none => { mgr := mgr,
              result := .error { message := "Task " ++ task_id ++ " not found", code := -32001 } }
  | some task =>
      if ["completed", "failed", "canceled"].contains task.status.state then
        { mgr := mgr, result := .ok task }
      else
        let mgr := mgr.bumpMetric "canceled"
        { mgr := mgr, result := .ok task }

/-! ## Preservation lemmas

The commit blocks after a handler invocation only touch the dead-letter
queue and the knowledge base (the registry writes are the un-awaited
coroutines), so the task registry they produce is the one the accept
phase wrote. -/

theorem bumpMetric_tasks (mgr : A2ATaskManager) (name : String) :
    (mgr.bumpMetric name).tasks = mgr.tasks := rfl

theorem add_to_dlq_tasks (mgr : A2ATaskManager) (tid : Option String) (m r : String) :
    (mgr.add_to_dlq tid m r).tasks = mgr.tasks := rfl

theorem sendCommitPhase_tasks (mgr : A2ATaskManager) (o : HandlerOutcome) (tid : String) :
    (mgr.sendCommitPhase o tid).tasks = mgr.tasks := by
  unfold A2ATaskManager.sendCommitPhase
  cases o with
  | ok result =>
      by_cases h1 : result.final_status.state = "completed" <;>
        by_cases h2 : result.final_status.state = "failed" <;>
          simp [h1, h2, add_to_dlq_tasks, bumpMetric_tasks]
  | exn e => simp [add_to_dlq_tasks, bumpMetric_tasks]

theorem runSendHandler_mgr_tasks (mgr : A2ATaskManager) (h : A2AHandler)
    (tc : A2ATask) (tid : String) :
    (mgr.runSendHandler h tc tid).mgr.tasks = mgr.tasks := by
  simp [A2ATaskManager.runSendHandler, sendCommitPhase_tasks]

theorem runSendHandler_result (mgr : A2ATaskManager) (h : A2AHandler)
    (tc : A2ATask) (tid : String) (t : A2ATask)
    (hlook : dictGet tid mgr.tasks = some t) :
    (mgr.runSendHandler h tc tid).result = .ok t := by
  simp [A2ATaskManager.runSendHandler, sendCommitPhase_tasks, hlook]

theorem subscribeFinally_tasks (mgr : A2ATaskManager) (tid : String) (st : A2ATaskState) :
    (mgr.subscribeFinally tid st).tasks = mgr.tasks := by
  unfold A2ATaskManager.subscribeFinally
  by_cases h : st.state = "completed" <;> simp [h, add_to_dlq_tasks, bumpMetric_tasks]

theorem runSubscribeHandler_mgr_tasks (mgr : A2ATaskManager) (h : A2AHandler)
    (tc : A2ATask) (tid : String) (now : Nat) :
    (mgr.runSubscribeHandler h tc tid now).1.tasks = mgr.tasks := by
  unfold A2ATaskManager.runSubscribeHandler
  cases hrun : (h.run tc).2 with
  | ok result =>
      cases hfp : finalPushText result.final_status.message with
      | ok txt => simp [hrun, hfp, subscribeFinally_tasks]
      | error e => simp [hrun, hfp, subscribeFinally_tasks, add_to_dlq_tasks]
  | exn e => simp [hrun, subscribeFinally_tasks, add_to_dlq_tasks]

/-! ## Concrete fixtures used by the claim evaluations and witnesses -/

/-- A user message routed to skill s1. -/
def msgU : A2AMessage :=
  { role := "user", parts := [A2APart.text "hello"], metadata := some [("skill_id", "s1")] }

def artifact1 : A2AArtifact := { name := some "out", parts := [A2APart.text "result-text"] }

/-- A handler that returns a completed result with no artifacts. -/
def okHandler : A2AHandler :=
  { iscoroutinefunction := true,
    run := fun _ => ([], .ok { final_status := { state := "completed" }, artifacts := [] }) }

/-- A handler that raises an exception with text boom. -/
def exnHandler : A2AHandler :=
  { iscoroutinefunction := true, run := fun _ => ([], .exn "boom") }

/-- The streaming scenario handler of the spec: one updateStatus(working)
call, then a completed result carrying one text artifact. -/
def streamHandler : A2AHandler :=
  { iscoroutinefunction := true,
    run := fun _ => ([CtxEvent.statusUpdate "working" none false],
      .ok { final_status := { state := "completed" }, artifacts := [artifact1] }) }

/-- A synchronous function offered as a handler; the router must refuse it. -/
def badHandler : A2AHandler :=
  { iscoroutinefunction := false, run := fun _ => ([], .exn "not async") }

def rtrOk : A2ATaskRouter := { handlers := [("s1", okHandler)], default_handler := none }
def rtrExn : A2ATaskRouter := { handlers := [("s1", exnHandler)], default_handler := none }
def rtrStream : A2ATaskRouter := { handlers := [("s1", streamHandler)], default_handler := none }
def rtrNone : A2ATaskRouter := { handlers := [], default_handler := none }

def emptyMgr : A2ATaskManager := { tasks := [], a2a_dlq := [], kb := { metrics := [] } }

/-- A tasks/send request for the given task id carrying msgU. -/
def paramsFor (id : String) : A2ATaskSendParams := { id := id, message := msgU }

/-- A completed task holding one artifact, for re-entry scenarios. -/
def taskT1b : A2ATask :=
  { id := "t1b", sessionId := some "old-session", status := { state := "completed" },
    history := [msgU], artifacts := [artifact1] }

def mgrT1b : A2ATaskManager :=
  { tasks := [("t1b", taskT1b)], a2a_dlq := [], kb := { metrics := [] } }

/-- A completed task with one message of history, for tasks/get. -/
def taskT2 : A2ATask :=
  { id := "t2", status := { state := "completed" }, history := [msgU] }

def mgrT2 : A2ATaskManager :=
  { tasks := [("t2", taskT2)], a2a_dlq := [], kb := { metrics := [] } }

/-- A failed task, outside the permitted re-entry states. -/
def taskT7f : A2ATask :=
  { id := "t7f", status := { state := "failed" }, history := [msgU] }

def mgrT7f : A2ATaskManager :=
  { tasks := [("t7f", taskT7f)], a2a_dlq := [], kb := { metrics := [] } }

/-- A task still working and holding one artifact, for tasks/cancel. -/
def taskT5 : A2ATask :=
  { id := "t5", status := { state := "working" }, history := [msgU], artifacts := [artifact1] }

def mgrT5 : A2ATaskManager :=
  { tasks := [("t5", taskT5)], a2a_dlq := [], kb := { metrics := [] } }

/-! ## The claims -/

/-- Claim C1 (code bug evaluation).  The claim says a single tasks/send
always leaves the stored task in state completed or failed, with a failed
state, the error text and cleared artifacts when the handler raises.  The
code instead leaves every task at the interim state working with its
artifacts untouched, because the commit calls at src/protocols.py lines
577 and 587 invoke the async _update_task_state without await: a fresh
send whose handler returns a completed result is stored and returned as
working, and a re-entered task whose handler raises keeps its old
artifacts and the state working. -/
theorem c1_send_commit_never_runs :
    ((emptyMgr.handle_task_send rtrOk (paramsFor "t1") "u1" 3).result).toOption.map
        (fun t => (t.status.state, t.artifacts)) = some ("working", []) ∧
    (dictGet "t1" (emptyMgr.handle_task_send rtrOk (paramsFor "t1") "u1" 3).mgr.tasks).map
        (fun t => t.status.state) = some "working" ∧
    (dictGet "t1b" (mgrT1b.handle_task_send rtrExn (paramsFor "t1b") "u2" 4).mgr.tasks).map
        (fun t => (t.status.state, t.artifacts)) = some ("working", [artifact1]) := by
  decide

/-- Claim C2 (code bug evaluation).  The claim says tasks/get with
historyLength 0 yields an empty history and a negative historyLength
yields no history.  On a stored task with one message the code returns
the full history in both cases: for 0 the slice history[-0:] at
src/protocols.py line 661 is the whole list (so the clearing branch at
line 663 is dead for non-empty histories), and a negative length takes
neither branch.  The last-N case of the claim does hold, as the third
conjunct shows for N = 1 out of 1 message. -/
theorem c2_get_history_length_bug :
    (mgrT2.handle_task_get "t2" 0).toOption.map (fun t => t.history) = some [msgU] ∧
    (mgrT2.handle_task_get "t2" (-1)).toOption.map (fun t => t.history) = some [msgU] ∧
    (mgrT2.handle_task_get "t2" 1).toOption.map (fun t => t.history) = some [msgU] := by
  decide

/-- Claim C4 (code bug evaluation).  The claim says the dead-letter queue
grows by exactly one for every handler failure.  A tasks/sendSubscribe
whose handler raises files two entries for the single failure: the except
block at src/protocols.py line 643 files Handler exception, then the
finally block at line 650 files Stream handler failed for the same
failure. -/
theorem c4_streaming_exception_double_dlq :
    (emptyMgr.handle_task_send_subscribe rtrExn (paramsFor "t4") "u4" 5).mgr.a2a_dlq =
      [("t4", "tasks/sendSubscribe", "Handler exception: boom"),
       ("t4", "tasks/sendSubscribe", "Stream handler failed: A2AMessage role=agent")] := by
  decide

/-- Claim C5 (code bug evaluation).  The claim says tasks/cancel moves a
non-terminal task to canceled and clears its artifacts.  On a task in
state working with one artifact the code returns the task unchanged, still
working and still holding the artifact, and leaves the registry entry
untouched: the transition built at src/protocols.py line 677 is handed to
the un-awaited _update_task_state call at line 678 and never executes
(only the canceled counter changes). -/
theorem c5_cancel_never_cancels :
    ((mgrT5.handle_task_cancel "t5" 9).result).toOption.map
        (fun t => (t.status.state, t.artifacts)) = some ("working", [artifact1]) ∧
    dictGet "t5" (mgrT5.handle_task_cancel "t5" 9).mgr.tasks = some taskT5 ∧
    (mgrT5.handle_task_cancel "t5" 9).mgr.kb.get_metric "a2a_tasks" "canceled" 0 = 1 := by
  decide

/-- The acceptance condition of the send paths: a fresh task id is always
accepted, an existing one only in the permitted re-entry states. -/
def acceptsResend (mgr : A2ATaskManager) (params : A2ATaskSendParams) : Bool :=
  match dictGet params.id mgr.tasks with
  | none => true
  | some t => permittedResendStates.contains t.status.state

/-- The artifacts stored for a task id before a call ([] when absent). -/
def priorArtifacts (mgr : A2ATaskManager) (id : String) : List A2AArtifact :=
  match dictGet id mgr.tasks with
  | none => []
  | some t => t.artifacts

theorem observedEvents_nonfinal_cons (id st : String) (txt : Option String)
    (now : Nat) (rest : List QueueItem) :
    observedEvents (mkStatusItem id st txt false now :: rest) =
      mkStatusItem id st txt false now :: observedEvents rest := by
  simp [mkStatusItem, observedEvents]

theorem observedEvents_final_cons (id st : String) (txt : Option String)
    (now : Nat) (rest : List QueueItem) :
    observedEvents (mkStatusItem id st txt true now :: rest) =
      [mkStatusItem id st txt true now] := by
  simp [mkStatusItem, observedEvents]

/-- Claim C3, counterexample.  In the exact scenario of the claim (a
streaming handler that calls updateStatus(working) once and returns a
completed result with one text artifact) the subscriber observes three
events, not two, and the artifact is not attached to the committed task:
the stored artifact list stays empty even though the handler result
carries the artifact. -/
theorem c3_two_events_counterexample :
    (observedEvents (emptyMgr.handle_task_send_subscribe rtrStream (paramsFor "t3") "u3" 6).queue).length = 3 ∧
    (dictGet "t3" (emptyMgr.handle_task_send_subscribe rtrStream (paramsFor "t3") "u3" 6).mgr.tasks).map
        (fun t => t.artifacts) = some [] ∧
    (streamHandler.run taskT2).2 =
      HandlerOutcome.ok { final_status := { state := "completed" }, artifacts := [artifact1] } := by
  decide

/-- Claim C3 as amended.  For every accepted streaming invocation whose
handler calls updateStatus(working) exactly once and then returns a
completed result, the subscriber observes exactly three events: the
initial non-final working push of the manager, the non-final working
status pushed by the handler, and one final completed status.  No artifact event is delivered,
and the artifact is not attached to the committed task either: the
registry keeps the artifacts it held before the call, because the final
commit at src/protocols.py line 648 is an un-awaited coroutine. -/
theorem c3_streaming_three_events (mgr : A2ATaskManager) (router : A2ATaskRouter)
    (params : A2ATaskSendParams) (handler : A2AHandler) (fresh : String)
    (now ts : Nat) (arts : List A2AArtifact)
    (hroute : router.get_handler (paramsSkillId params) = some handler)
    (hrun : handler.run = fun _ => ([CtxEvent.statusUpdate "working" none false],
        HandlerOutcome.ok { final_status := { state := "completed", message := none, timestamp := ts },
                            artifacts := arts }))
    (hacc : acceptsResend mgr params = true) :
    (mgr.handle_task_send_subscribe router params fresh now).queue =
      [mkStatusItem params.id "working" (some "Task submitted for processing...") false now,
       mkStatusItem params.id "working" none false now,
       mkStatusItem params.id "completed" none true now] ∧
    observedEvents (mgr.handle_task_send_subscribe router params fresh now).queue =
      (mgr.handle_task_send_subscribe router params fresh now).queue ∧
    (dictGet params.id (mgr.handle_task_send_subscribe router params fresh now).mgr.tasks).map
        (fun t => t.artifacts) = some (priorArtifacts mgr params.id) := by
  unfold acceptsResend at hacc
  have hqueue : (mgr.handle_task_send_subscribe router params fresh now).queue =
      [mkStatusItem params.id "working" (some "Task submitted for processing...") false now,
       mkStatusItem params.id "working" none false now,
       mkStatusItem params.id "completed" none true now] := by
    cases hex : dictGet params.id mgr.tasks with
    | none =>
        simp [A2ATaskManager.handle_task_send_subscribe, hroute, hex,
          A2ATaskManager.runSubscribeHandler, hrun, finalPushText, ctxEventToItem]
    | some task =>
        rw [hex] at hacc
        have hmem : task.status.state ∈ permittedResendStates := by simpa using hacc
        simp [A2ATaskManager.handle_task_send_subscribe, hroute, hex, hmem,
          A2ATaskManager.runSubscribeHandler, hrun, finalPushText, ctxEventToItem]
  refine ⟨hqueue, ?_, ?_⟩
  · rw [hqueue, observedEvents_nonfinal_cons, observedEvents_nonfinal_cons,
      observedEvents_final_cons]
  · unfold priorArtifacts
    cases hex : dictGet params.id mgr.tasks with
    | none =>
        simp [A2ATaskManager.handle_task_send_subscribe, hroute, hex,
          runSubscribeHandler_mgr_tasks, bumpMetric_tasks, dictGet_dictInsert_self]
    | some task =>
        rw [hex] at hacc
        have hmem : task.status.state ∈ permittedResendStates := by simpa using hacc
        simp [A2ATaskManager.handle_task_send_subscribe, hroute, hex, hmem,
          runSubscribeHandler_mgr_tasks, bumpMetric_tasks, dictGet_dictInsert_self]

/-- Claim C3, witness: the amended statement evaluated on the concrete
streaming scenario. -/
theorem c3_streaming_three_events_witness :
    (emptyMgr.handle_task_send_subscribe rtrStream (paramsFor "t3w") "u3" 6).queue =
      [mkStatusItem "t3w" "working" (some "Task submitted for processing...") false 6,
       mkStatusItem "t3w" "working" none false 6,
       mkStatusItem "t3w" "completed" none true 6] ∧
    observedEvents (emptyMgr.handle_task_send_subscribe rtrStream (paramsFor "t3w") "u3" 6).queue =
      (emptyMgr.handle_task_send_subscribe rtrStream (paramsFor "t3w") "u3" 6).queue ∧
    (dictGet "t3w" (emptyMgr.handle_task_send_subscribe rtrStream (paramsFor "t3w") "u3" 6).mgr.tasks).map
        (fun t => t.artifacts) = some [] :=
  c3_streaming_three_events emptyMgr rtrStream (paramsFor "t3w") streamHandler "u3" 6 0
    [artifact1] rfl rfl (by decide)

/-- Claim C6.  A tasks/send request whose skill id resolves to no handler
(no specific handler and no default) appends exactly one entry to the
dead-letter queue and raises an A2AError with code -32601, leaving the
task registry unchanged: no task is created or modified for that id. -/
theorem c6_unroutable_send (mgr : A2ATaskManager) (router : A2ATaskRouter)
    (params : A2ATaskSendParams) (fresh : String) (now : Nat)
    (h : router.get_handler (paramsSkillId params) = none) :
    (mgr.handle_task_send router params fresh now).mgr.tasks = mgr.tasks ∧
    (mgr.handle_task_send router params fresh now).mgr.a2a_dlq =
      mgr.a2a_dlq ++ [(pyOrStr (some params.id) "unknown", "tasks/send",
        "No suitable handler found (Skill ID: " ++ pyFormatOptStr (paramsSkillId params) ++ ")")] ∧
    (mgr.handle_task_send router params fresh now).result =
      .error { message := "No suitable agent handler found for skill "
                 ++ pyFormatOptStr (paramsSkillId params), code := -32601 } := by
  refine ⟨?_, ?_, ?_⟩ <;>
    simp [A2ATaskManager.handle_task_send, h, A2ATaskManager.add_to_dlq]

/-- Claim C6, witness: an unroutable send against an empty router. -/
theorem c6_unroutable_send_witness :
    (emptyMgr.handle_task_send rtrNone (paramsFor "t6") "u6" 7).mgr.tasks = emptyMgr.tasks ∧
    (emptyMgr.handle_task_send rtrNone (paramsFor "t6") "u6" 7).mgr.a2a_dlq =
      emptyMgr.a2a_dlq ++ [(pyOrStr (some "t6") "unknown", "tasks/send",
        "No suitable handler found (Skill ID: " ++ pyFormatOptStr (paramsSkillId (paramsFor "t6")) ++ ")")] ∧
    (emptyMgr.handle_task_send rtrNone (paramsFor "t6") "u6" 7).result =
      .error { message := "No suitable agent handler found for skill "
                 ++ pyFormatOptStr (paramsSkillId (paramsFor "t6")), code := -32601 } :=
  c6_unroutable_send emptyMgr rtrNone (paramsFor "t6") "u6" 7 rfl

/-- Claim C7.  For an existing task and a routable request, the send is
accepted exactly when the stored state is one of input-required,
completed, working, submitted or canceled: an accepted send returns a
task, appends the message to the stored history and leaves the stored
state at working (the handler outcome is never committed, because the
commit call is not awaited); a send
in any other state raises the invalid-state A2AError with code -32004 and
leaves the manager completely unchanged. -/
theorem c7_resend_state_gate (mgr : A2ATaskManager) (router : A2ATaskRouter)
    (params : A2ATaskSendParams) (fresh : String) (now : Nat)
    (task : A2ATask) (handler : A2AHandler)
    (htask : dictGet params.id mgr.tasks = some task)
    (hh : router.get_handler (paramsSkillId params) = some handler) :
    if permittedResendStates.contains task.status.state then
      (∃ t, (mgr.handle_task_send router params fresh now).result = .ok t) ∧
      (dictGet params.id (mgr.handle_task_send router params fresh now).mgr.tasks).map
          (fun t => t.history) = some (task.history ++ [params.message]) ∧
      (dictGet params.id (mgr.handle_task_send router params fresh now).mgr.tasks).map
          (fun t => t.status.state) = some "working"
    else
      (mgr.handle_task_send router params fresh now).mgr = mgr ∧
      (mgr.handle_task_send router params fresh now).result =
        .error { message := "Task " ++ params.id ++ " in invalid state "
                   ++ task.status.state, code := -32004 } := by
  cases hcond : permittedResendStates.contains task.status.state with
  | true =>
      rw [if_pos rfl]
      have hmem : task.status.state ∈ permittedResendStates := by simpa using hcond
      refine ⟨?_, ?_, ?_⟩
      · refine ⟨{ task with
            history := task.history ++ [params.message],
            sessionId := some (pyOrStr params.sessionId fresh),
            status := { state := "working", message := none, timestamp := now } }, ?_⟩
        simp [A2ATaskManager.handle_task_send, hh, htask, hmem,
          runSendHandler_result, dictGet_dictInsert_self]
      · simp [A2ATaskManager.handle_task_send, hh, htask, hmem,
          runSendHandler_mgr_tasks, dictGet_dictInsert_self]
      · simp [A2ATaskManager.handle_task_send, hh, htask, hmem,
          runSendHandler_mgr_tasks, dictGet_dictInsert_self]
  | false =>
      rw [if_neg (by decide)]
      have hmem : task.status.state ∉ permittedResendStates := by simpa using hcond
      refine ⟨?_, ?_⟩ <;> simp [A2ATaskManager.handle_task_send, hh, htask, hmem]

/-- Claim C7, witness: re-entry of a completed task is accepted and a
send to a failed task is rejected with code -32004. -/
theorem c7_resend_state_gate_witness :
    (if permittedResendStates.contains taskT1b.status.state then
      (∃ t, (mgrT1b.handle_task_send rtrOk (paramsFor "t1b") "u7" 8).result = .ok t) ∧
      (dictGet "t1b" (mgrT1b.handle_task_send rtrOk (paramsFor "t1b") "u7" 8).mgr.tasks).map
          (fun t => t.history) = some (taskT1b.history ++ [msgU]) ∧
      (dictGet "t1b" (mgrT1b.handle_task_send rtrOk (paramsFor "t1b") "u7" 8).mgr.tasks).map
          (fun t => t.status.state) = some "working"
    else
      (mgrT1b.handle_task_send rtrOk (paramsFor "t1b") "u7" 8).mgr = mgrT1b ∧
      (mgrT1b.handle_task_send rtrOk (paramsFor "t1b") "u7" 8).result =
        .error { message := "Task " ++ "t1b" ++ " in invalid state "
                   ++ taskT1b.status.state, code := -32004 }) ∧
    (if permittedResendStates.contains taskT7f.status.state then
      (∃ t, (mgrT7f.handle_task_send rtrOk (paramsFor "t7f") "u7" 8).result = .ok t) ∧
      (dictGet "t7f" (mgrT7f.handle_task_send rtrOk (paramsFor "t7f") "u7" 8).mgr.tasks).map
          (fun t => t.history) = some (taskT7f.history ++ [msgU]) ∧
      (dictGet "t7f" (mgrT7f.handle_task_send rtrOk (paramsFor "t7f") "u7" 8).mgr.tasks).map
          (fun t => t.status.state) = some "working"
    else
      (mgrT7f.handle_task_send rtrOk (paramsFor "t7f") "u7" 8).mgr = mgrT7f ∧
      (mgrT7f.handle_task_send rtrOk (paramsFor "t7f") "u7" 8).result =
        .error { message := "Task " ++ "t7f" ++ " in invalid state "
                   ++ taskT7f.status.state, code := -32004 }) :=
  ⟨c7_resend_state_gate mgrT1b rtrOk (paramsFor "t1b") "u7" 8 taskT1b okHandler rfl rfl,
   c7_resend_state_gate mgrT7f rtrOk (paramsFor "t7f") "u7" 8 taskT7f okHandler rfl rfl⟩

/-- A router holding one specific handler and no default. -/
def rtrW : A2ATaskRouter := { handlers := [("s1", okHandler)], default_handler := none }

/-- A router whose only specific handler is registered under the empty
skill id. -/
def emptySkillRouter : A2ATaskRouter := { handlers := [], default_handler := none }

/-- Claim C9, counterexample.  An async handler registered under the
empty skill id is stored in the handler table, yet resolving the empty
skill id does not return it: the Python guard (skill_id and skill_id in
handlers) treats the empty string as no skill id and falls through to the
(absent) default, returning none although the skill id matches a
registered one. -/
theorem c9_empty_skill_counterexample :
    dictGet "" (emptySkillRouter.register_handler "" streamHandler).handlers = some streamHandler ∧
    (emptySkillRouter.register_handler "" streamHandler).get_handler (some "") = none :=
  ⟨rfl, rfl⟩

/-- Claim C9 as amended.  register stores the handler keyed by skill id
when it is an async callable and leaves the router unchanged otherwise;
resolve returns the registered specific handler when a non-empty skill id
matches one, otherwise the default handler when one is registered,
otherwise none (none and the empty string always resolve to the default
slot). -/
theorem c9_router_contract (r : A2ATaskRouter) (s : String) (h : A2AHandler) :
    (h.iscoroutinefunction = false → r.register_handler s h = r) ∧
    (h.iscoroutinefunction = true →
      dictGet s (r.register_handler s h).handlers = some h) ∧
    (∀ sid hh, sid ≠ "" → dictGet sid r.handlers = some hh →
      r.get_handler (some sid) = some hh) ∧
    (∀ sid, sid ≠ "" → dictGet sid r.handlers = none →
      r.get_handler (some sid) = r.default_handler) ∧
    r.get_handler none = r.default_handler := by
  refine ⟨?_, ?_, ?_, ?_, ?_⟩
  · intro hasync; simp [A2ATaskRouter.register_handler, hasync]
  · intro hasync
    simp [A2ATaskRouter.register_handler, hasync, dictGet_dictInsert_self]
  · intro sid hh hne hget
    simp [A2ATaskRouter.get_handler, pyTruthyOptStr, hne, hget]
  · intro sid hne hget
    simp [A2ATaskRouter.get_handler, pyTruthyOptStr, hne, hget]
  · simp [A2ATaskRouter.get_handler, pyTruthyOptStr]

/-- Claim C9, witness: a rejected synchronous registration, a stored
async registration, a specific hit, a fallback miss and the none case on
the concrete router. -/
theorem c9_router_contract_witness :
    rtrW.register_handler "s9" badHandler = rtrW ∧
    dictGet "s9" (rtrW.register_handler "s9" exnHandler).handlers = some exnHandler ∧
    rtrW.get_handler (some "s1") = some okHandler ∧
    rtrW.get_handler (some "zz") = rtrW.default_handler ∧
    rtrW.get_handler none = rtrW.default_handler :=
  ⟨(c9_router_contract rtrW "s9" badHandler).1 rfl,
   (c9_router_contract rtrW "s9" exnHandler).2.1 rfl,
   (c9_router_contract rtrW "s9" badHandler).2.2.1 "s1" okHandler (by decide) rfl,
   (c9_router_contract rtrW "s9" badHandler).2.2.2.1 "zz" (by decide) rfl,
   (c9_router_contract rtrW "s9" badHandler).2.2.2.2⟩

/-- An existing completed task with a stored session id, and a request
that supplies the empty string as session id. -/
def taskT10 : A2ATask :=
  { id := "t10", sessionId := some "old-session", status := { state := "completed" },
    history := [msgU] }

def mgrT10 : A2ATaskManager :=
  { tasks := [("t10", taskT10)], a2a_dlq := [], kb := { metrics := [] } }

def paramsT10 : A2ATaskSendParams := { id := "t10", sessionId := some "", message := msgU }

/-- Claim C10, counterexample.  The request supplies a session id (the
empty string), but the accepted re-submission does not store it: the
Python expression params.sessionId or str(uuid.uuid4()) treats the empty
string as absent, so the stored session id becomes the freshly generated
uuid instead of the supplied one. -/
theorem c10_empty_session_counterexample :
    paramsT10.sessionId = some "" ∧
    (dictGet "t10" (mgrT10.handle_task_send rtrOk paramsT10 "fresh-uuid-1" 8).mgr.tasks).map
        (fun t => t.sessionId) = some (some "fresh-uuid-1") := by
  decide

/-- Claim C10 as amended.  Every accepted tasks/send or tasks/sendSubscribe
on an existing task overwrites the stored sessionId: it becomes the
sessionId of the request when the request supplies a non-empty one, and
otherwise the freshly generated uuid; the previously stored sessionId is
never preserved (unless the request resupplies it). -/
theorem c10_session_overwrite (mgr : A2ATaskManager) (router : A2ATaskRouter)
    (params : A2ATaskSendParams) (fresh : String) (now : Nat)
    (task : A2ATask) (handler : A2AHandler)
    (htask : dictGet params.id mgr.tasks = some task)
    (hh : router.get_handler (paramsSkillId params) = some handler)
    (hstate : task.status.state ∈ permittedResendStates) :
    (dictGet params.id (mgr.handle_task_send router params fresh now).mgr.tasks).map
        (fun t => t.sessionId) = some (some (pyOrStr params.sessionId fresh)) ∧
    (dictGet params.id (mgr.handle_task_send_subscribe router params fresh now).mgr.tasks).map
        (fun t => t.sessionId) = some (some (pyOrStr params.sessionId fresh)) := by
  refine ⟨?_, ?_⟩
  · simp [A2ATaskManager.handle_task_send, hh, htask, hstate,
      runSendHandler_mgr_tasks, dictGet_dictInsert_self]
  · simp [A2ATaskManager.handle_task_send_subscribe, hh, htask, hstate,
      runSubscribeHandler_mgr_tasks, dictGet_dictInsert_self]

/-- Claim C10, witness: re-submission of taskT1b (stored session id
old-session) with a request carrying no session id stores the fresh
uuid. -/
theorem c10_session_overwrite_witness :
    (dictGet "t1b" (mgrT1b.handle_task_send rtrOk (paramsFor "t1b") "uuid-w10" 9).mgr.tasks).map
        (fun t => t.sessionId) = some (some (pyOrStr (paramsFor "t1b").sessionId "uuid-w10")) ∧
    (dictGet "t1b" (mgrT1b.handle_task_send_subscribe rtrOk (paramsFor "t1b") "uuid-w10" 9).mgr.tasks).map
        (fun t => t.sessionId) = some (some (pyOrStr (paramsFor "t1b").sessionId "uuid-w10")) :=
  c10_session_overwrite mgrT1b rtrOk (paramsFor "t1b") "uuid-w10" 9 taskT1b okHandler
    rfl rfl (by decide)

end APIA
